import Mathlib

/-!
Verification of `scripts/estimate_inertial_properties.py` (shadow_hand_ign).

The script is a single linear pipeline: parse an optional target-mass
argument (default 4.2 kg, must be positive), list and sort the visual-mesh
directory, load each mesh into a dict keyed by the file stem, accumulate the
total volume with a 4x weight for finger/knuckle links, record the volume of
the forearm link, derive an average density and a redistribution of the
forearm's density share onto the other links, and emit one SDF document with
one model and one link entry per loaded mesh.

The embedding below mirrors the script statement by statement over exact
rational arithmetic.  The external mesh service (trimesh) is a black box per
the design document: each loaded mesh reports a volume, a moment-of-inertia
tensor and a centre of mass; the only analytic fact the script relies on is
mass = density * volume.  Fallible steps return `Except Err`.
-/

attribute [local semireducible] Rat.add Rat.mul Rat.sub Rat.inv

namespace ShadowHand

/-- Lexicographic comparison of character lists by code point, the order
Python's `list.sort` applies to the directory listing. -/
def charListLe : List Char → List Char → Bool
  | [], _ => true
  | _ :: _, [] => false
  | a :: as, b :: bs =>
      if a < b then true
      else if b < a then false
      else charListLe as bs

/-- Lexicographic comparison of strings by code point. -/
def strLe (a b : String) : Bool :=
  charListLe a.toList b.toList

/-- Bool test that `pat` is an initial segment of `s` (character lists). -/
def isStartOf : List Char → List Char → Bool
  | [], _ => true
  | _ :: _, [] => false
  | a :: as, b :: bs => a == b && isStartOf as bs

/-- Python substring containment `pat in s` on character lists: `pat` is an
initial segment of some suffix of `s`. -/
def listContainsSub (pat : List Char) : List Char → Bool
  | [] => pat.isEmpty
  | c :: t => isStartOf pat (c :: t) || listContainsSub pat t

/-- Python `pat in s` for strings. -/
def containsSub (s pat : String) : Bool :=
  listContainsSub pat.toList s.toList

/-- Classification of repeated symmetric parts, from the source:
`if 'finger' in link_name or 'knuckle' in link_name`. -/
def isRepeated (name : String) : Bool :=
  containsSub name "finger" || containsSub name "knuckle"

/-- Classification of the distinguished link, from the source:
`if 'forearm' in link_name`. -/
def isForearm (name : String) : Bool :=
  containsSub name "forearm"

/-- Python `os.path.splitext(basename)[0]`: drop the extension that starts at
the last dot, unless every character before that dot is itself a dot. -/
def splitextRoot (s : String) : String :=
  let cs := s.toList
  match cs.reverse.findIdx? (fun c => c == '.') with
  | none => s
  | some j =>
      let i := cs.length - 1 - j
      if (cs.take i).any (fun c => c != '.') then String.mk (cs.take i) else s

/-- The 3x3 moment-of-inertia tensor reported by the external mesh service;
entry `xy` is row 0, column 1, and so on. -/
structure Mat3 where
  xx : ℚ
  xy : ℚ
  xz : ℚ
  yx : ℚ
  yy : ℚ
  yz : ℚ
  zx : ℚ
  zy : ℚ
  zz : ℚ
deriving DecidableEq, Repr

/-- A 3-vector of rationals (centre of mass). -/
structure Vec3 where
  x : ℚ
  y : ℚ
  z : ℚ
deriving DecidableEq, Repr

/-- What the external mesh service (trimesh) reports for one loaded mesh:
its volume, the moment-of-inertia tensor, and the centre of mass.  The
geometric integration is outside this repository; the script only relies on
`mass = density * volume` (design document, per-link property estimator). -/
structure MeshData where
  volume : ℚ
  momentInertia : Mat3
  centerMass : Vec3
deriving DecidableEq, Repr

/-- Failure modes of the script, in pipeline order: the explicit `exit(1)`
for a non-positive mass argument, an unloadable mesh file, `ZeroDivisionError`
at `total_mass/total_volume`, `UnboundLocalError` reading `forearm_volume`
when no link name matched, and `ZeroDivisionError` at
`forearm_mass_redistribute_percentage/other_links_proportion`. -/
inductive Err where
  | usage
  | meshLoadFailure
  | zeroDivisionTotalVolume
  | unboundLocalForearm
  | zeroDivisionOtherLinks
deriving DecidableEq, Repr

instance {ε α : Type} [DecidableEq ε] [DecidableEq α] : DecidableEq (Except ε α) :=
  fun x y =>
    match x, y with
    | .error a, .error b =>
        if h : a = b then .isTrue (by rw [h])
        else .isFalse (by intro hc; cases hc; exact h rfl)
    | .error _, .ok _ => .isFalse (by intro hc; cases hc)
    | .ok _, .error _ => .isFalse (by intro hc; cases hc)
    | .ok a, .ok b =>
        if h : a = b then .isTrue (by rw [h])
        else .isFalse (by intro hc; cases hc; exact h rfl)

/-- The default total mass, 4.2 kg from the datasheet. -/
def defaultTotalMass : ℚ := 21 / 5

/-- Argument handling from the source: with no argument the default is kept;
a provided argument must be strictly positive, else `exit(1)`. -/
def parseTotalMass : Option ℚ → Except Err ℚ
  | none => .ok defaultTotalMass
  | some m => if 0 < m then .ok m else .error .usage

/-- The fixed redistribution fraction (`forearm_mass_redistribute_percentage`). -/
def forearmMassRedistributePercentage : ℚ := 1 / 2

/-- Python dict assignment `d[k] = v`: replace in place if the key exists,
else append. -/
def dictInsert (k : String) (v : MeshData) :
    List (String × MeshData) → List (String × MeshData)
  | [] => [(k, v)]
  | (k0, v0) :: t =>
      if k0 == k then (k0, v) :: t else (k0, v0) :: dictInsert k v t

/-- Mesh loading from the source: sort the directory listing, derive each
link name by stripping the extension, and load each file into the dict in
that order.  `dir` is the directory: the mesh each basename parses to, if
any; an unparseable file aborts the run. -/
def loadMeshes (dir : String → Option MeshData) (basenames : List String) :
    Except Err (List (String × MeshData)) :=
  (List.insertionSort (fun a b => strLe a b = true) basenames).foldlM
    (fun d b =>
      match dir b with
      | none => .error .meshLoadFailure
      | some md => .ok (dictInsert (splitextRoot b) md d))
    []

/-- The `total_volume` accumulation loop from the source: repeated links
contribute four times their volume. -/
def totalVolume (ms : List (String × MeshData)) : ℚ :=
  ms.foldl
    (fun acc p =>
      if isRepeated p.1 then acc + 4 * p.2.volume else acc + p.2.volume)
    0

/-- The `forearm_volume` variable at the end of the volume loop: every
matching link overwrites it, so it holds the volume of the last match in
iteration order, and stays unset when nothing matched. -/
def forearmVolumeState (ms : List (String × MeshData)) : Option ℚ :=
  ms.foldl (fun acc p => if isForearm p.1 then some p.2.volume else acc) none

/-- The density assigned to a link in the estimation loop: the forearm link
gets `(1 - f) * avg`, every other link `avg + (f/q - f) * avg` where `q` is
`other_links_proportion`. -/
def linkDensity (f avg q : ℚ) (name : String) : ℚ :=
  if isForearm name then (1 - f) * avg
  else avg + (f / q - f) * avg

/-- The mass the mesh service reports after the density assignment:
`density * volume`. -/
def linkMass (f avg q : ℚ) (p : String × MeshData) : ℚ :=
  linkDensity f avg q p.1 * p.2.volume

/-- The recomputed total mass (sanity loop of the source): assigned link
masses summed with the same 4x weighting for repeated links. -/
def recomputedTotalMass (f avg q : ℚ) (ms : List (String × MeshData)) : ℚ :=
  ms.foldl
    (fun acc p =>
      if isRepeated p.1 then acc + 4 * linkMass f avg q p
      else acc + linkMass f avg q p)
    0

/-- The six independent inertia components stored in an SDF link entry. -/
structure Inertia where
  ixx : ℚ
  iyy : ℚ
  izz : ℚ
  ixy : ℚ
  ixz : ℚ
  iyz : ℚ
deriving DecidableEq, Repr

/-- One SDF link entry: mass, inertia components, and the 6-DoF inertial
pose written as a flat list. -/
structure LinkEntry where
  mass : ℚ
  inertia : Inertia
  inertialPose : List ℚ
deriving DecidableEq, Repr

/-- One SDF model: a name and its link entries in insertion order. -/
structure SdfModel where
  name : String
  links : List (String × LinkEntry)
deriving DecidableEq, Repr

/-- The SDF document: its models. -/
structure SdfDoc where
  models : List SdfModel
deriving DecidableEq, Repr

/-- Build one link entry from the source: mass, the six tensor components
taken at rows/columns [0][0], [1][1], [2][2], [0][1], [0][2], [1][2], and the
pose `[com_x, com_y, com_z, 0, 0, 0]`. -/
def mkLinkEntry (f avg q : ℚ) (p : String × MeshData) : String × LinkEntry :=
  (p.1,
    ⟨linkMass f avg q p,
     ⟨p.2.momentInertia.xx, p.2.momentInertia.yy, p.2.momentInertia.zz,
      p.2.momentInertia.xy, p.2.momentInertia.xz, p.2.momentInertia.yz⟩,
     [p.2.centerMass.x, p.2.centerMass.y, p.2.centerMass.z, 0, 0, 0]⟩)

/-- The document-building phase: one model named `shadow_hand`, one link
entry per loaded mesh. -/
def buildSdf (f avg q : ℚ) (ms : List (String × MeshData)) : SdfDoc :=
  ⟨[⟨"shadow_hand", ms.map (mkLinkEntry f avg q)⟩]⟩

/-- The pipeline after mesh loading, mirroring the source order: the average
density division raises `ZeroDivisionError` when the total volume is zero;
reading `forearm_volume` raises `UnboundLocalError` when no link matched;
the per-link density formula divides by `other_links_proportion`, raising
`ZeroDivisionError` when that proportion is zero and some non-forearm link
exists; otherwise the document is built. -/
def runWithMeshes (totalMass : ℚ) (ms : List (String × MeshData)) :
    Except Err SdfDoc :=
  let tv := totalVolume ms
  if tv = 0 then .error .zeroDivisionTotalVolume
  else
    match forearmVolumeState ms with
    | none => .error .unboundLocalForearm
    | some fv =>
        let q := 1 - fv / tv
        if q = 0 ∧ ms.any (fun p => !isForearm p.1) then
          .error .zeroDivisionOtherLinks
        else .ok (buildSdf forearmMassRedistributePercentage (totalMass / tv) q ms)

/-- The whole run: argument validation, then mesh loading, then the numeric
pipeline and document construction. -/
def run (arg : Option ℚ) (dir : String → Option MeshData)
    (basenames : List String) : Except Err SdfDoc := do
  let m ← parseTotalMass arg
  let ms ← loadMeshes dir basenames
  runWithMeshes m ms

/-- The fixed output file name. -/
def outputFileName : String := "shadow_hand_inertial_out.sdf"

/-- The files a run writes: the single export at the very end on success,
nothing on any failure. -/
def outputFiles : Except Err SdfDoc → List (String × SdfDoc)
  | .error _ => []
  | .ok d => [(outputFileName, d)]

/-- Process exit status for each failure: the explicit `exit(1)` for the
usage error; an uncaught Python exception also terminates the interpreter
with status 1. -/
def exitCode : Err → Nat
  | .usage => 1
  | .meshLoadFailure => 1
  | .zeroDivisionTotalVolume => 1
  | .unboundLocalForearm => 1
  | .zeroDivisionOtherLinks => 1

/-! ### Helper lemmas about the accumulation loops -/

/-- The weighted volume one link contributes to `total_volume`: four times its
volume for repeated links, once otherwise. -/
def weightedVolume (p : String × MeshData) : ℚ :=
  if isRepeated p.1 then 4 * p.2.volume else p.2.volume

theorem foldl_add_eq {α : Type} (g : α → ℚ) (ms : List α) (acc : ℚ) :
    ms.foldl (fun a p => a + g p) acc = acc + (ms.map g).sum := by
  induction ms generalizing acc with
  | nil => simp
  | cons p t ih => simp [ih, add_assoc]

theorem sum_map_split {α : Type} (g : α → ℚ) (pred : α → Bool) (ms : List α) :
    (ms.map g).sum
      = ((ms.filter pred).map g).sum + ((ms.filter (fun p => !pred p)).map g).sum := by
  induction ms with
  | nil => simp
  | cons p t ih =>
      by_cases h : pred p = true <;>
        simp [List.filter_cons, h, ih] <;> ring

theorem totalVolume_eq_sum (ms : List (String × MeshData)) :
    totalVolume ms = (ms.map weightedVolume).sum := by
  have hfun :
      (fun (a : ℚ) (p : String × MeshData) =>
          if isRepeated p.1 then a + 4 * p.2.volume else a + p.2.volume)
        = fun a p => a + weightedVolume p := by
    funext a p
    by_cases h : isRepeated p.1 <;> simp [weightedVolume, h]
  rw [totalVolume, hfun, foldl_add_eq, zero_add]

theorem recomputedTotalMass_eq_sum (f avg q : ℚ) (ms : List (String × MeshData)) :
    recomputedTotalMass f avg q ms
      = (ms.map (fun p => linkDensity f avg q p.1 * weightedVolume p)).sum := by
  have hfun :
      (fun (a : ℚ) (p : String × MeshData) =>
          if isRepeated p.1 then a + 4 * linkMass f avg q p else a + linkMass f avg q p)
        = fun a p => a + linkDensity f avg q p.1 * weightedVolume p := by
    funext a p
    by_cases h : isRepeated p.1
    · simp [weightedVolume, linkMass, h]
      ring
    · simp [weightedVolume, linkMass, h]
  rw [recomputedTotalMass, hfun, foldl_add_eq, zero_add]

theorem forearmVolumeState_aux (ms : List (String × MeshData)) (acc : Option ℚ) :
    ms.foldl (fun a p => if isForearm p.1 then some p.2.volume else a) acc
      = match (ms.filter fun p => isForearm p.1).getLast? with
        | none => acc
        | some p => some p.2.volume := by
  induction ms generalizing acc with
  | nil => simp
  | cons p t ih =>
      cases h : isForearm p.1 with
      | true =>
          simp only [List.foldl_cons, h, if_pos, List.filter_cons, ih]
          rcases hlast : (t.filter fun p => isForearm p.1).getLast? with _ | q
          · rw [List.getLast?_eq_none_iff] at hlast
            simp [h, hlast]
          · have hcons : (p :: t.filter fun p => isForearm p.1).getLast? = some q := by
              rcases hfil : t.filter fun p => isForearm p.1 with _ | ⟨x, l2⟩
              · rw [hfil] at hlast
                simp at hlast
              · rw [hfil] at hlast
                rw [hfil, List.getLast?_cons_cons, hlast]
            simp [hlast, hcons]
      | false =>
          simp only [List.foldl_cons, List.filter_cons, h, Bool.false_eq_true, if_false]
          exact ih acc

/-- The `forearm_volume` variable ends up holding the volume of the last
matching link in iteration order (matches overwrite each other), and stays
unset exactly when no link name matched. -/
theorem forearmVolumeState_eq (ms : List (String × MeshData)) :
    forearmVolumeState ms
      = ((ms.filter fun p => isForearm p.1).getLast?).map (fun p => p.2.volume) := by
  rw [forearmVolumeState, forearmVolumeState_aux]
  cases (ms.filter fun p => isForearm p.1).getLast? <;> rfl

theorem forearmVolumeState_eq_none (ms : List (String × MeshData))
    (h : ∀ p ∈ ms, isForearm p.1 = false) : forearmVolumeState ms = none := by
  rw [forearmVolumeState_eq]
  have : ms.filter (fun p => isForearm p.1) = [] := by
    rw [List.filter_eq_nil_iff]
    intro p hp
    simp [h p hp]
  rw [this]
  rfl

/-! ### Lemmas relating `run` to its stages -/

theorem run_eq_runWithMeshes (arg : Option ℚ) (dir : String → Option MeshData)
    (basenames : List String) (m : ℚ) (ms : List (String × MeshData))
    (hm : parseTotalMass arg = .ok m) (hl : loadMeshes dir basenames = .ok ms) :
    run arg dir basenames = runWithMeshes m ms := by
  rw [run, hm, hl]
  rfl

theorem runWithMeshes_ok (m : ℚ) (ms : List (String × MeshData)) (doc : SdfDoc)
    (h : runWithMeshes m ms = .ok doc) :
    ∃ fv, totalVolume ms ≠ 0 ∧ forearmVolumeState ms = some fv ∧
      doc = buildSdf forearmMassRedistributePercentage (m / totalVolume ms)
              (1 - fv / totalVolume ms) ms := by
  rw [runWithMeshes] at h
  by_cases htv : totalVolume ms = 0
  · rw [if_pos htv] at h
    cases h
  · rw [if_neg htv] at h
    rcases hfv : forearmVolumeState ms with _ | fv
    · rw [hfv] at h
      cases h
    · rw [hfv] at h
      dsimp only at h
      refine ⟨fv, htv, rfl, ?_⟩
      by_cases hz : 1 - fv / totalVolume ms = 0 ∧ ms.any (fun p => !isForearm p.1)
      · rw [if_pos hz] at h
        cases h
      · rw [if_neg hz] at h
        cases h
        rfl

theorem map_filter_congr {α β : Type} (g h : α → β) (pred : α → Bool) (ms : List α)
    (hg : ∀ p, pred p = true → g p = h p) :
    (ms.filter pred).map g = (ms.filter pred).map h := by
  apply List.map_congr_left
  intro a ha
  exact hg a ((List.mem_filter.mp ha).2)

/-! ### The claims -/

/-- C2: for every loaded mesh set, the accumulated `total_volume` equals the
sum of the volumes of the non-repeated links plus four times the sum of the
volumes of the repeated (finger/knuckle-named) links. -/
theorem totalVolume_weighted_sum (ms : List (String × MeshData)) :
    totalVolume ms
      = ((ms.filter fun p => !isRepeated p.1).map fun p => p.2.volume).sum
        + 4 * ((ms.filter fun p => isRepeated p.1).map fun p => p.2.volume).sum := by
  rw [totalVolume_eq_sum, sum_map_split weightedVolume (fun p => isRepeated p.1)]
  rw [map_filter_congr weightedVolume (fun p => 4 * p.2.volume) _ ms
        (by intro p hp; simp [weightedVolume, hp])]
  rw [map_filter_congr weightedVolume (fun p => p.2.volume) _ ms
        (by intro p hp; simp only [Bool.not_eq_eq_eq_not, Bool.not_true] at hp
            simp [weightedVolume, hp])]
  rw [List.sum_map_mul_left]
  ring

/-- C3: whenever the target mass and the total weighted volume are positive
(so the average density is positive) and the redistribution fraction lies in
the open interval (0,1), the density assigned to a forearm-named link is
strictly below the average density; the program's fixed fraction 0.5 lies in
that interval. -/
theorem forearm_density_below_average (m tv q f : ℚ) (name : String)
    (hm : 0 < m) (htv : 0 < tv) (hf0 : 0 < f) (_hf1 : f < 1)
    (hname : isForearm name = true) :
    linkDensity f (m / tv) q name < m / tv
      ∧ (0 : ℚ) < forearmMassRedistributePercentage
      ∧ forearmMassRedistributePercentage < 1 := by
  have havg : 0 < m / tv := div_pos hm htv
  refine ⟨?_, by norm_num [forearmMassRedistributePercentage],
    by norm_num [forearmMassRedistributePercentage]⟩
  rw [linkDensity, if_pos hname]
  nlinarith

/-- Witness for C3 at mass 3, volume 2, fraction 1/2, link "lh_forearm". -/
theorem forearm_density_below_average_witness :
    linkDensity (1/2) ((3 : ℚ) / 2) (1/2) "lh_forearm" < (3 : ℚ) / 2
      ∧ (0 : ℚ) < forearmMassRedistributePercentage
      ∧ forearmMassRedistributePercentage < 1 :=
  forearm_density_below_average 3 2 (1/2) (1/2) "lh_forearm"
    (by norm_num) (by norm_num) (by norm_num) (by norm_num) (by decide)

/-- C5: a provided non-positive target-mass argument makes the run fail with
the usage error and exit status 1 for every directory state, before any mesh
is consulted, and no output file is written; an omitted argument parses to
the default 4.2. -/
theorem usage_error_boundary (m : ℚ) (hm : m ≤ 0) (dir : String → Option MeshData)
    (basenames : List String) :
    run (some m) dir basenames = .error .usage
      ∧ outputFiles (run (some m) dir basenames) = []
      ∧ exitCode .usage = 1
      ∧ parseTotalMass none = .ok (21 / 5) := by
  have hp : parseTotalMass (some m) = .error .usage := by
    rw [parseTotalMass, if_neg (not_lt.mpr hm)]
  have hr : run (some m) dir basenames = .error .usage := by
    rw [run, hp]
    rfl
  exact ⟨hr, by rw [hr]; rfl, rfl, rfl⟩

/-- Witness for C5 at mass 0 with an empty directory. -/
theorem usage_error_boundary_witness :
    run (some 0) (fun _ => none) [] = .error .usage
      ∧ outputFiles (run (some 0) (fun _ => none) []) = []
      ∧ exitCode .usage = 1
      ∧ parseTotalMass none = .ok (21 / 5) :=
  usage_error_boundary 0 (by norm_num) (fun _ => none) []

/-- C4: when the loaded meshes contain no forearm-named link, the run stops
with an explicit uncaught error (`ZeroDivisionError` computing the average
density, or `UnboundLocalError` reading `forearm_volume`) before the
redistribution division `forearm_volume/total_volume` is reached, and no
output file is written. -/
theorem no_forearm_link_fails (arg : Option ℚ) (dir : String → Option MeshData)
    (basenames : List String) (m : ℚ) (ms : List (String × MeshData))
    (hm : parseTotalMass arg = .ok m)
    (hl : loadMeshes dir basenames = .ok ms)
    (hno : ∀ p ∈ ms, isForearm p.1 = false) :
    (run arg dir basenames = .error .zeroDivisionTotalVolume
        ∨ run arg dir basenames = .error .unboundLocalForearm)
      ∧ outputFiles (run arg dir basenames) = [] := by
  have hrw : run arg dir basenames = runWithMeshes m ms :=
    run_eq_runWithMeshes arg dir basenames m ms hm hl
  have hfv : forearmVolumeState ms = none := forearmVolumeState_eq_none ms hno
  by_cases htv : totalVolume ms = 0
  · have : run arg dir basenames = .error .zeroDivisionTotalVolume := by
      rw [hrw, runWithMeshes, if_pos htv]
    exact ⟨Or.inl this, by rw [this]; rfl⟩
  · have : run arg dir basenames = .error .unboundLocalForearm := by
      rw [hrw, runWithMeshes, if_neg htv, hfv]
    exact ⟨Or.inr this, by rw [this]; rfl⟩

/-- Witness for C4: a one-file directory whose only link is named "palm". -/
theorem no_forearm_link_fails_witness :
    (run none (fun b => if b == "palm.dae" then some ⟨1, ⟨0,0,0,0,0,0,0,0,0⟩, ⟨0,0,0⟩⟩ else none)
        ["palm.dae"] = .error .zeroDivisionTotalVolume
      ∨ run none (fun b => if b == "palm.dae" then some ⟨1, ⟨0,0,0,0,0,0,0,0,0⟩, ⟨0,0,0⟩⟩ else none)
        ["palm.dae"] = .error .unboundLocalForearm)
      ∧ outputFiles (run none
          (fun b => if b == "palm.dae" then some ⟨1, ⟨0,0,0,0,0,0,0,0,0⟩, ⟨0,0,0⟩⟩ else none)
          ["palm.dae"]) = [] :=
  no_forearm_link_fails none
    (fun b => if b == "palm.dae" then some ⟨1, ⟨0,0,0,0,0,0,0,0,0⟩, ⟨0,0,0⟩⟩ else none)
    ["palm.dae"] defaultTotalMass [("palm", ⟨1, ⟨0,0,0,0,0,0,0,0,0⟩, ⟨0,0,0⟩⟩)]
    (by rfl) (by decide) (by decide)

theorem recomputed_split (f avg q : ℚ) (ms : List (String × MeshData)) :
    recomputedTotalMass f avg q ms
      = (1 - f) * avg * ((ms.filter fun p => isForearm p.1).map weightedVolume).sum
        + (avg + (f / q - f) * avg)
            * ((ms.filter fun p => !isForearm p.1).map weightedVolume).sum := by
  rw [recomputedTotalMass_eq_sum,
    sum_map_split (fun p => linkDensity f avg q p.1 * weightedVolume p)
      (fun p => isForearm p.1)]
  rw [map_filter_congr (fun p => linkDensity f avg q p.1 * weightedVolume p)
        (fun p => (1 - f) * avg * weightedVolume p) _ ms
        (by intro p hp; simp [linkDensity, hp])]
  rw [map_filter_congr (fun p => linkDensity f avg q p.1 * weightedVolume p)
        (fun p => (avg + (f / q - f) * avg) * weightedVolume p) _ ms
        (by intro p hp
            simp only [Bool.not_eq_eq_eq_not, Bool.not_true] at hp
            simp [linkDensity, hp])]
  rw [List.sum_map_mul_left, List.sum_map_mul_left]

/-- C1: when the mesh set has exactly one forearm-named link, that link is
not classified as repeated, the total weighted volume is positive and the
other-links proportion is positive, the recomputed total mass (assigned
densities times volumes, repeated links counted four times) equals the
target mass exactly in rational arithmetic. -/
theorem density_redistribution_conserves_mass
    (m : ℚ) (ms : List (String × MeshData)) (n : String) (md : MeshData)
    (hfilter : ms.filter (fun p => isForearm p.1) = [(n, md)])
    (hnotrep : isRepeated n = false)
    (htv : 0 < totalVolume ms)
    (hq : 0 < 1 - md.volume / totalVolume ms) :
    recomputedTotalMass forearmMassRedistributePercentage (m / totalVolume ms)
        (1 - md.volume / totalVolume ms) ms = m := by
  have hT : totalVolume ms ≠ 0 := ne_of_gt htv
  -- the weighted volume of the forearm side of the split is the forearm volume
  have hWF : ((ms.filter fun p => isForearm p.1).map weightedVolume).sum = md.volume := by
    rw [hfilter]
    simp [weightedVolume, hnotrep]
  -- the weighted volume of the other links is the rest of the total volume
  have hWO : ((ms.filter fun p => !isForearm p.1).map weightedVolume).sum
      = totalVolume ms - md.volume := by
    have hsplit := sum_map_split weightedVolume (fun p => isForearm p.1) ms
    rw [← totalVolume_eq_sum, hWF] at hsplit
    linarith
  rw [recomputed_split, hWF, hWO]
  -- the proportion is positive, so total volume strictly exceeds the forearm volume
  have hTF : totalVolume ms - md.volume ≠ 0 := by
    have : md.volume / totalVolume ms < 1 := by linarith
    have : md.volume < totalVolume ms := (div_lt_one htv).mp this
    linarith
  rw [forearmMassRedistributePercentage]
  field_simp
  ring

/-- Witness for C1: forearm volume 1, palm volume 1/2, repeated fffinger
volume 1/10, target mass 21/5 — the worked scenario of the design document. -/
theorem density_redistribution_conserves_mass_witness :
    recomputedTotalMass forearmMassRedistributePercentage
        ((21 : ℚ) / 5 / totalVolume
          [("fffinger", ⟨1/10, ⟨0,0,0,0,0,0,0,0,0⟩, ⟨0,0,0⟩⟩),
           ("forearm", ⟨1, ⟨0,0,0,0,0,0,0,0,0⟩, ⟨0,0,0⟩⟩),
           ("palm", ⟨1/2, ⟨0,0,0,0,0,0,0,0,0⟩, ⟨0,0,0⟩⟩)])
        (1 - (1 : ℚ) / totalVolume
          [("fffinger", ⟨1/10, ⟨0,0,0,0,0,0,0,0,0⟩, ⟨0,0,0⟩⟩),
           ("forearm", ⟨1, ⟨0,0,0,0,0,0,0,0,0⟩, ⟨0,0,0⟩⟩),
           ("palm", ⟨1/2, ⟨0,0,0,0,0,0,0,0,0⟩, ⟨0,0,0⟩⟩)])
        [("fffinger", ⟨1/10, ⟨0,0,0,0,0,0,0,0,0⟩, ⟨0,0,0⟩⟩),
         ("forearm", ⟨1, ⟨0,0,0,0,0,0,0,0,0⟩, ⟨0,0,0⟩⟩),
         ("palm", ⟨1/2, ⟨0,0,0,0,0,0,0,0,0⟩, ⟨0,0,0⟩⟩)] = (21 : ℚ) / 5 :=
  density_redistribution_conserves_mass (21/5)
    [("fffinger", ⟨1/10, ⟨0,0,0,0,0,0,0,0,0⟩, ⟨0,0,0⟩⟩),
     ("forearm", ⟨1, ⟨0,0,0,0,0,0,0,0,0⟩, ⟨0,0,0⟩⟩),
     ("palm", ⟨1/2, ⟨0,0,0,0,0,0,0,0,0⟩, ⟨0,0,0⟩⟩)]
    "forearm" ⟨1, ⟨0,0,0,0,0,0,0,0,0⟩, ⟨0,0,0⟩⟩
    (by decide) (by decide) (by decide) (by decide)

/-! ### Sample inputs for concrete witnesses -/

/-- Sample forearm mesh of volume 1. -/
def sampleMd1 : MeshData := ⟨1, ⟨11, 12, 13, 12, 14, 15, 13, 15, 16⟩, ⟨2, 3, 4⟩⟩

/-- Sample palm mesh of volume 1. -/
def sampleMd2 : MeshData := ⟨1, ⟨5, 6, 7, 6, 8, 9, 7, 9, 10⟩, ⟨1, 2, 3⟩⟩

/-- Sample two-file directory. -/
def sampleDir : String → Option MeshData := fun b =>
  if b == "forearm.dae" then some sampleMd1
  else if b == "palm.dae" then some sampleMd2
  else none

/-- The sample directory listing, deliberately unsorted. -/
def sampleBasenames : List String := ["palm.dae", "forearm.dae"]

/-- The dict the sample directory loads to. -/
def sampleMeshes : List (String × MeshData) :=
  [("forearm", sampleMd1), ("palm", sampleMd2)]

/-- The document the sample run (target mass 4) exports. -/
def sampleDoc : SdfDoc :=
  ⟨[⟨"shadow_hand",
    [("forearm", ⟨1, ⟨11, 14, 16, 12, 13, 15⟩, [2, 3, 4, 0, 0, 0]⟩),
     ("palm", ⟨3, ⟨5, 8, 10, 6, 7, 9⟩, [1, 2, 3, 0, 0, 0]⟩)]⟩]⟩

/-- C6: a successful run exports a document with exactly one model and one
link entry per loaded mesh; the 4x weighting never changes the entry count. -/
theorem output_entry_count (arg : Option ℚ) (dir : String → Option MeshData)
    (basenames : List String) (m : ℚ) (ms : List (String × MeshData)) (doc : SdfDoc)
    (hm : parseTotalMass arg = .ok m)
    (hl : loadMeshes dir basenames = .ok ms)
    (hr : run arg dir basenames = .ok doc) :
    doc.models.length = 1 ∧ ∀ mdl ∈ doc.models, mdl.links.length = ms.length := by
  rw [run_eq_runWithMeshes arg dir basenames m ms hm hl] at hr
  obtain ⟨fv, htv, hfv, hdoc⟩ := runWithMeshes_ok m ms doc hr
  subst hdoc
  refine ⟨rfl, ?_⟩
  intro mdl hmdl
  simp only [buildSdf, List.mem_singleton] at hmdl
  subst hmdl
  simp [List.length_map]

/-- Witness for C6 at the sample run with target mass 4. -/
theorem output_entry_count_witness :
    sampleDoc.models.length = 1
      ∧ ∀ mdl ∈ sampleDoc.models, mdl.links.length = sampleMeshes.length :=
  output_entry_count (some 4) sampleDir sampleBasenames 4 sampleMeshes sampleDoc
    (by decide) (by decide) (by decide)

/-- C7: each output link entry carries the computed mass, the six
independent inertia components read from the tensor at [0][0], [1][1],
[2][2], [0][1], [0][2], [1][2], and an inertial pose whose translation is
the centre of mass and whose rotation components are exactly zero. -/
theorem output_entry_fields (arg : Option ℚ) (dir : String → Option MeshData)
    (basenames : List String) (m : ℚ) (ms : List (String × MeshData)) (doc : SdfDoc)
    (hm : parseTotalMass arg = .ok m)
    (hl : loadMeshes dir basenames = .ok ms)
    (hr : run arg dir basenames = .ok doc) :
    ∀ mdl ∈ doc.models,
      List.Forall₂ (fun (p : String × MeshData) (l : String × LinkEntry) =>
          l.1 = p.1
          ∧ l.2.mass = linkDensity forearmMassRedistributePercentage (m / totalVolume ms)
              (1 - (forearmVolumeState ms).getD 0 / totalVolume ms) p.1 * p.2.volume
          ∧ l.2.inertia.ixx = p.2.momentInertia.xx
          ∧ l.2.inertia.iyy = p.2.momentInertia.yy
          ∧ l.2.inertia.izz = p.2.momentInertia.zz
          ∧ l.2.inertia.ixy = p.2.momentInertia.xy
          ∧ l.2.inertia.ixz = p.2.momentInertia.xz
          ∧ l.2.inertia.iyz = p.2.momentInertia.yz
          ∧ l.2.inertialPose
              = [p.2.centerMass.x, p.2.centerMass.y, p.2.centerMass.z, 0, 0, 0])
        ms mdl.links := by
  rw [run_eq_runWithMeshes arg dir basenames m ms hm hl] at hr
  obtain ⟨fv, htv, hfv, hdoc⟩ := runWithMeshes_ok m ms doc hr
  subst hdoc
  intro mdl hmdl
  simp only [buildSdf, List.mem_singleton] at hmdl
  subst hmdl
  rw [List.forall₂_map_right_iff, List.forall₂_same]
  intro p hp
  refine ⟨rfl, ?_, rfl, rfl, rfl, rfl, rfl, rfl, rfl⟩
  rw [hfv]
  rfl

/-- The single model of the sample document. -/
def sampleModel : SdfModel :=
  ⟨"shadow_hand",
    [("forearm", ⟨1, ⟨11, 14, 16, 12, 13, 15⟩, [2, 3, 4, 0, 0, 0]⟩),
     ("palm", ⟨3, ⟨5, 8, 10, 6, 7, 9⟩, [1, 2, 3, 0, 0, 0]⟩)]⟩

/-- Witness for C7 at the sample run with target mass 4, on the single
model of the sample document. -/
theorem output_entry_fields_witness :
    List.Forall₂ (fun (p : String × MeshData) (l : String × LinkEntry) =>
        l.1 = p.1
        ∧ l.2.mass = linkDensity forearmMassRedistributePercentage
            ((4 : ℚ) / totalVolume sampleMeshes)
            (1 - (forearmVolumeState sampleMeshes).getD 0 / totalVolume sampleMeshes)
            p.1 * p.2.volume
        ∧ l.2.inertia.ixx = p.2.momentInertia.xx
        ∧ l.2.inertia.iyy = p.2.momentInertia.yy
        ∧ l.2.inertia.izz = p.2.momentInertia.zz
        ∧ l.2.inertia.ixy = p.2.momentInertia.xy
        ∧ l.2.inertia.ixz = p.2.momentInertia.xz
        ∧ l.2.inertia.iyz = p.2.momentInertia.yz
        ∧ l.2.inertialPose
            = [p.2.centerMass.x, p.2.centerMass.y, p.2.centerMass.z, 0, 0, 0])
      sampleMeshes sampleModel.links :=
  output_entry_fields (some 4) sampleDir sampleBasenames 4 sampleMeshes sampleDoc
    (by decide) (by decide) (by decide) sampleModel (by decide)

/-- C8: every run either fails with an error and writes nothing, or succeeds
and writes exactly the one complete document, with one model and one link
entry per loaded mesh; there is no partial output. -/
theorem output_atomicity (arg : Option ℚ) (dir : String → Option MeshData)
    (basenames : List String) :
    (∃ e, run arg dir basenames = .error e
        ∧ outputFiles (run arg dir basenames) = [])
      ∨ (∃ ms doc, loadMeshes dir basenames = .ok ms
          ∧ run arg dir basenames = .ok doc
          ∧ outputFiles (run arg dir basenames) = [(outputFileName, doc)]
          ∧ doc.models.length = 1
          ∧ ∀ mdl ∈ doc.models, mdl.links.length = ms.length) := by
  rcases hp : parseTotalMass arg with e | m
  · left
    have hr : run arg dir basenames = .error e := by
      rw [run, hp]
      rfl
    exact ⟨e, hr, by rw [hr]; rfl⟩
  · rcases hl : loadMeshes dir basenames with e | ms
    · left
      have hr : run arg dir basenames = .error e := by
        rw [run, hp, hl]
        rfl
      exact ⟨e, hr, by rw [hr]; rfl⟩
    · have hrw : run arg dir basenames = runWithMeshes m ms :=
        run_eq_runWithMeshes arg dir basenames m ms hp hl
      rcases hr : runWithMeshes m ms with e | doc
      · left
        rw [hrw, hr]
        exact ⟨e, rfl, rfl⟩
      · right
        obtain ⟨fv, htv, hfv, hdoc⟩ := runWithMeshes_ok m ms doc hr
        refine ⟨ms, doc, rfl, by rw [hrw, hr], by rw [hrw, hr]; rfl, ?_, ?_⟩
        · rw [hdoc]
          rfl
        · intro mdl hmdl
          rw [hdoc] at hmdl
          simp only [buildSdf, List.mem_singleton] at hmdl
          subst hmdl
          simp [List.length_map]

/-! ### Order theory for the listing sort (claim C9) -/

theorem charListLe_total : ∀ as bs : List Char,
    charListLe as bs = true ∨ charListLe bs as = true
  | [], _ => Or.inl rfl
  | _ :: _, [] => Or.inr rfl
  | a :: as, b :: bs => by
      rcases lt_trichotomy a b with h | h | h
      · left
        simp [charListLe, h]
      · subst h
        rcases charListLe_total as bs with ih | ih
        · left
          simp [charListLe, lt_irrefl, ih]
        · right
          simp [charListLe, lt_irrefl, ih]
      · right
        simp [charListLe, h]

theorem charListLe_trans : ∀ as bs cs : List Char,
    charListLe as bs = true → charListLe bs cs = true → charListLe as cs = true
  | [], _, _, _, _ => rfl
  | _ :: _, [], _, h1, _ => by simp [charListLe] at h1
  | _ :: _, _ :: _, [], _, h2 => by simp [charListLe] at h2
  | a :: as, b :: bs, c :: cs, h1, h2 => by
      rcases lt_trichotomy a b with hab | hab | hab
      · rcases lt_trichotomy b c with hbc | hbc | hbc
        · simp [charListLe, lt_trans hab hbc]
        · subst hbc
          simp [charListLe, hab]
        · simp [charListLe, asymm hbc, hbc] at h2
      · subst hab
        rcases lt_trichotomy a c with hac | hac | hac
        · simp [charListLe, hac]
        · subst hac
          simp only [charListLe, lt_irrefl, if_false] at h1 h2 ⊢
          exact charListLe_trans as bs cs h1 h2
        · simp [charListLe, asymm hac, hac] at h2
      · simp [charListLe, asymm hab, hab] at h1

theorem charListLe_antisymm : ∀ as bs : List Char,
    charListLe as bs = true → charListLe bs as = true → as = bs
  | [], [], _, _ => rfl
  | [], _ :: _, _, h2 => by simp [charListLe] at h2
  | _ :: _, [], h1, _ => by simp [charListLe] at h1
  | a :: as, b :: bs, h1, h2 => by
      rcases lt_trichotomy a b with hab | hab | hab
      · simp [charListLe, asymm hab, hab] at h2
      · subst hab
        simp only [charListLe, lt_irrefl, if_false] at h1 h2
        rw [charListLe_antisymm as bs h1 h2]
      · simp [charListLe, asymm hab, hab] at h1

theorem strLe_total (a b : String) : strLe a b = true ∨ strLe b a = true :=
  charListLe_total a.toList b.toList

theorem strLe_trans {a b c : String} (h1 : strLe a b = true) (h2 : strLe b c = true) :
    strLe a c = true :=
  charListLe_trans a.toList b.toList c.toList h1 h2

theorem strLe_antisymm {a b : String} (h1 : strLe a b = true)
    (h2 : strLe b a = true) : a = b := by
  have h := charListLe_antisymm a.toList b.toList h1 h2
  cases a with
  | mk da =>
      cases b with
      | mk db =>
          simp only [String.toList] at h
          rw [h]

instance : IsTotal String (fun a b => strLe a b = true) :=
  ⟨strLe_total⟩

instance : IsTrans String (fun a b => strLe a b = true) :=
  ⟨fun _ _ _ => strLe_trans⟩

instance : IsAntisymm String (fun a b => strLe a b = true) :=
  ⟨fun _ _ => strLe_antisymm⟩

/-- C9: the run is a deterministic function of the directory contents and
the target-mass argument: any two enumeration orders of the same directory
listing produce identical results, because the listing is sorted before any
mesh is loaded. -/
theorem run_independent_of_listing_order (arg : Option ℚ)
    (dir : String → Option MeshData) (bs1 bs2 : List String)
    (hperm : bs1.Perm bs2) :
    run arg dir bs1 = run arg dir bs2 := by
  have hsort : List.insertionSort (fun a b => strLe a b = true) bs1
      = List.insertionSort (fun a b => strLe a b = true) bs2 :=
    List.eq_of_perm_of_sorted
      ((List.perm_insertionSort _ bs1).trans
        (hperm.trans (List.perm_insertionSort _ bs2).symm))
      (List.sorted_insertionSort _ bs1) (List.sorted_insertionSort _ bs2)
  have hload : loadMeshes dir bs1 = loadMeshes dir bs2 := by
    rw [loadMeshes, loadMeshes, hsort]
  rw [run, run, hload]

/-- Witness for C9: the sample directory listed in two different orders. -/
theorem run_independent_of_listing_order_witness :
    run (some 4) sampleDir ["palm.dae", "forearm.dae"]
      = run (some 4) sampleDir ["forearm.dae", "palm.dae"] :=
  run_independent_of_listing_order (some 4) sampleDir
    ["palm.dae", "forearm.dae"] ["forearm.dae", "palm.dae"] (by decide)

/-! ### Multiple forearm matches (claim C10) -/

/-- The value claim C10 predicts for `forearm_volume` when several link
names match: the volume of the lexicographically last matching link.  Stated
from the claim's words, for comparison with the code's behaviour. -/
def lexLastForearmVolume (ms : List (String × MeshData)) : Option ℚ :=
  ((List.insertionSort (fun a b => strLe a.1 b.1 = true)
      (ms.filter fun p => isForearm p.1)).getLast?).map
    (fun p => p.2.volume)

/-- A directory with two forearm-named files: `forearm-x.dae` (volume 1)
and `forearm.dae` (volume 2).  The hyphen sorts before the dot, so the
basename order is `forearm-x.dae`, `forearm.dae`, while the link names sort
the other way round: `forearm` before `forearm-x`. -/
def twoForearmDir : String → Option MeshData := fun b =>
  if b == "forearm-x.dae" then some ⟨1, ⟨0, 0, 0, 0, 0, 0, 0, 0, 0⟩, ⟨0, 0, 0⟩⟩
  else if b == "forearm.dae" then some ⟨2, ⟨0, 0, 0, 0, 0, 0, 0, 0, 0⟩, ⟨0, 0, 0⟩⟩
  else none

/-- The listing of the two-forearm directory. -/
def twoForearmBasenames : List String := ["forearm.dae", "forearm-x.dae"]

/-- The dict the two-forearm directory loads to, in iteration order. -/
def twoForearmMeshes : List (String × MeshData) :=
  [("forearm-x", ⟨1, ⟨0, 0, 0, 0, 0, 0, 0, 0, 0⟩, ⟨0, 0, 0⟩⟩),
   ("forearm", ⟨2, ⟨0, 0, 0, 0, 0, 0, 0, 0, 0⟩, ⟨0, 0, 0⟩⟩)]

/-- Counterexample to C10 as stated: both links of the two-forearm
directory match the forearm token, the lexicographically last matching link
name is `forearm-x` with volume 1, yet the captured `forearm_volume` is 2,
the volume of `forearm` — the last match in iteration order, which follows
sorted basenames, not sorted link names. -/
theorem forearm_overwrite_counterexample :
    loadMeshes twoForearmDir twoForearmBasenames = .ok twoForearmMeshes
      ∧ (∀ p ∈ twoForearmMeshes, isForearm p.1 = true)
      ∧ strLe "forearm" "forearm-x" = true
      ∧ "forearm" ≠ "forearm-x"
      ∧ lexLastForearmVolume twoForearmMeshes = some 1
      ∧ forearmVolumeState twoForearmMeshes = some 2
      ∧ forearmVolumeState twoForearmMeshes ≠ lexLastForearmVolume twoForearmMeshes := by
  decide

/-- C10 amended: when several link names contain the forearm token, the
captured `forearm_volume` is the volume of the last matching link in the
iteration order of the loaded dict (each match overwrites the previous
assignment; the iteration order follows sorted basenames, which need not
sort the derived link names lexicographically), while every matching link is
nonetheless assigned the reduced distinguished-link density. -/
theorem forearm_overwrite_last_match (ms : List (String × MeshData))
    (avg q : ℚ) (name : String) (hname : isForearm name = true) :
    forearmVolumeState ms
        = ((ms.filter fun p => isForearm p.1).getLast?).map (fun p => p.2.volume)
      ∧ linkDensity forearmMassRedistributePercentage avg q name
          = (1 - forearmMassRedistributePercentage) * avg := by
  refine ⟨forearmVolumeState_eq ms, ?_⟩
  rw [linkDensity, if_pos hname]

/-- Witness for the amended C10 on the two-forearm dict. -/
theorem forearm_overwrite_last_match_witness :
    forearmVolumeState twoForearmMeshes
        = ((twoForearmMeshes.filter fun p => isForearm p.1).getLast?).map
            (fun p => p.2.volume)
      ∧ linkDensity forearmMassRedistributePercentage 2 (1/2) "forearm-x"
          = (1 - forearmMassRedistributePercentage) * 2 :=
  forearm_overwrite_last_match twoForearmMeshes 2 (1/2) "forearm-x" (by decide)

end ShadowHand
